import Mathlib

/- Verification development for the ShieldAI compliance-gap engine
   (backend/knowledge_base.py, backend/crawler.py, backend/gap_analyzer.py).

   The Python dictionaries that travel between the crawler and the gap
   analyzer are embedded as explicit structures.  Machine strings are Lean
   `String`s; Python's `s.lower()` and `needle in haystack` are embedded by
   executable character-list functions (`lowerStr`, `strContains`) so that
   concrete runs reduce inside the kernel.  All the catalogue data the claims
   depend on (tracker signatures, inline-call signatures, enforcement cases)
   is transcribed verbatim.  Purely presentational string fields of the
   Python dicts (formatted fine strings, `title`/`claim`/`actual`/
   `enforcement` prose, per-bucket `detail` text, the `fine`/`authority`/
   `violation` display strings of enforcement cases) are not carried: no
   claim mentions them and they do not feed back into any computed field.
   Money amounts are Python ints, embedded as `Int`; `int(x * 0.58)` on a
   non-negative int is embedded as exact floor division `x * 58 / 100`
   (CPython evaluates the product in binary floating point; the claims under
   study never depend on that rounding). -/

set_option maxRecDepth 40000

namespace ShieldAI

/- ===== character/string primitives (Python str.lower, `in`, split, strip) ===== -/

/-- ASCII lower-casing of one character, as Python's `str.lower` acts on the
ASCII inputs used throughout the catalogue and the analyzer. -/
def lowerChar (c : Char) : Char :=
  if 'A' ≤ c ∧ c ≤ 'Z' then Char.ofNat (c.toNat + 32) else c

/-- Python `s.lower()` on ASCII strings. -/
def lowerStr (s : String) : String := String.mk (s.toList.map lowerChar)

/-- Does the needle stand at the head of the haystack? -/
def leadsWith : List Char → List Char → Bool
  | [], _ => true
  | _ :: _, [] => false
  | a :: as, b :: bs => a == b && leadsWith as bs

/-- Does the needle occur anywhere in the haystack? -/
def occursIn (needle : List Char) : List Char → Bool
  | [] => leadsWith needle []
  | b :: bs => leadsWith needle (b :: bs) || occursIn needle bs

/-- Python's substring test `needle in haystack`. -/
def strContains (haystack needle : String) : Bool :=
  occursIn needle.toList haystack.toList

/-- Python `s.lower().split()[0]`: the first whitespace-delimited word of the
lower-cased string.  Python raises IndexError when the string has no
non-whitespace character; the embedding returns "" there (every catalogue
name is a non-empty word, so the two never differ on crawler output). -/
def firstWordLower (s : String) : String :=
  String.mk (((lowerStr s).toList.dropWhile Char.isWhitespace).takeWhile
    (fun c => !c.isWhitespace))

/-- Python `s.strip(chars)`: remove the given characters from both ends. -/
def stripEnds (s : String) (cs : List Char) : String :=
  String.mk
    ((((s.toList.dropWhile (fun c => cs.contains c)).reverse.dropWhile
      (fun c => cs.contains c)).reverse))

/- ===== the evidence-record data model (crawler output / analyzer input) ===== -/

/-- One tracker finding, as the dicts built by `detect_trackers` and consumed
by `analyze_gaps` (keys name/category/data_shared/signature/source). -/
structure Tracker where
  name : String
  category : String
  data_shared : List String
  signature : String
  source : String
deriving Repr, DecidableEq

/-- One input field of a detected form (keys name/type/required). -/
structure FormField where
  name : String
  type : String
  required : Bool
deriving Repr, DecidableEq

/-- One detected form (keys action/method/fields). -/
structure Form where
  action : String
  method : String
  fields : List FormField
deriving Repr, DecidableEq

/-- One data-collection signal (keys category/signal/description). -/
structure Signal where
  category : String
  signal : String
  description : String
deriving Repr, DecidableEq

/-- The consent-banner analysis record consumed by `analyze_gaps`
(`detected`, `provider`, `issues`; the further heuristic flags of
`detect_consent_banner` do not feed the analyzer). -/
structure ConsentBanner where
  detected : Bool
  provider : Option String
  issues : List String
deriving Repr, DecidableEq

/-- The slice of the crawl-result dict that `analyze_gaps` reads:
`trackers_found`, `forms_detected`, `data_collection_signals`,
`consent_banner`, `privacy_policy_text`. -/
structure CrawlData where
  trackers_found : List Tracker
  forms_detected : List Form
  data_collection_signals : List Signal
  consent_banner : ConsentBanner
  privacy_policy_text : String
deriving Repr, DecidableEq

/- ===== knowledge_base.py ===== -/

/-- The value part of one `TRACKER_SIGNATURES` entry. -/
structure SigInfo where
  name : String
  cat : String
  data : List String
deriving Repr, DecidableEq

/-- `TRACKER_SIGNATURES` of knowledge_base.py, in dict insertion order:
domain signature to canonical name, category and data collected. -/
def TRACKER_SIGNATURES : List (String × SigInfo) := [
  ("google-analytics.com", ⟨"Google Analytics", "analytics", ["page views", "user behavior", "device info", "IP address"]⟩),
  ("googletagmanager.com", ⟨"Google Tag Manager", "tag_management", ["page views", "events", "user interactions"]⟩),
  ("googlesyndication.com", ⟨"Google Ads", "advertising", ["browsing behavior", "device ID", "ad interactions"]⟩),
  ("googleadservices.com", ⟨"Google Ads Conversion", "advertising", ["conversion events", "device info"]⟩),
  ("doubleclick.net", ⟨"DoubleClick (Google)", "advertising", ["browsing history", "ad impressions", "device fingerprint"]⟩),
  ("facebook.net", ⟨"Meta Pixel", "advertising", ["page views", "custom events", "device info", "hashed emails"]⟩),
  ("connect.facebook.net", ⟨"Facebook SDK", "advertising", ["user interactions", "device info", "browsing behavior"]⟩),
  ("facebook.com/tr", ⟨"Meta Tracking Pixel", "advertising", ["page views", "conversion events"]⟩),
  ("tiktok.com", ⟨"TikTok Pixel", "advertising", ["page views", "events", "device fingerprint"]⟩),
  ("analytics.tiktok.com", ⟨"TikTok Analytics", "advertising", ["page views", "events", "device fingerprint"]⟩),
  ("snap.licdn.com", ⟨"LinkedIn Insight Tag", "advertising", ["page views", "professional profile data"]⟩),
  ("ads.linkedin.com", ⟨"LinkedIn Ads", "advertising", ["conversion events", "professional data"]⟩),
  ("bat.bing.com", ⟨"Microsoft Ads UET", "advertising", ["search behavior", "conversion events"]⟩),
  ("criteo.com", ⟨"Criteo", "advertising", ["browsing behavior", "product views", "device ID"]⟩),
  ("criteo.net", ⟨"Criteo Network", "advertising", ["browsing behavior", "retargeting data"]⟩),
  ("amazon-adsystem.com", ⟨"Amazon Ads", "advertising", ["browsing behavior", "purchase intent"]⟩),
  ("pinterest.com/ct", ⟨"Pinterest Tag", "advertising", ["page views", "conversion events"]⟩),
  ("ads.twitter.com", ⟨"X/Twitter Ads", "advertising", ["page views", "conversion events"]⟩),
  ("t.co", ⟨"X/Twitter Click Tracking", "advertising", ["click tracking", "referral data"]⟩),
  ("adsrvr.org", ⟨"The Trade Desk", "advertising", ["browsing behavior", "device ID", "ad impressions"]⟩),
  ("taboola.com", ⟨"Taboola", "advertising", ["content interactions", "browsing behavior"]⟩),
  ("outbrain.com", ⟨"Outbrain", "advertising", ["content interactions", "browsing behavior"]⟩),
  ("adroll.com", ⟨"AdRoll", "advertising", ["browsing behavior", "retargeting data"]⟩),
  ("liveramp.com", ⟨"LiveRamp", "advertising", ["identity resolution", "cross-device tracking"]⟩),
  ("doubleverify.com", ⟨"DoubleVerify", "advertising", ["ad viewability", "brand safety metrics"]⟩),
  ("demdex.net", ⟨"Adobe Audience Manager", "advertising", ["audience segments", "device IDs"]⟩),
  ("hotjar.com", ⟨"Hotjar", "analytics", ["mouse movements", "clicks", "scrolling", "session recordings"]⟩),
  ("clarity.ms", ⟨"Microsoft Clarity", "analytics", ["session recordings", "heatmaps", "click patterns"]⟩),
  ("mixpanel.com", ⟨"Mixpanel", "analytics", ["user events", "funnels", "user properties"]⟩),
  ("segment.io", ⟨"Segment", "analytics", ["all event data", "user profiles", "cross-platform tracking"]⟩),
  ("segment.com", ⟨"Segment", "analytics", ["all event data", "user profiles", "cross-platform tracking"]⟩),
  ("amplitude.com", ⟨"Amplitude", "analytics", ["user events", "behavioral analytics", "user properties"]⟩),
  ("heap.io", ⟨"Heap Analytics", "analytics", ["auto-captured events", "user sessions"]⟩),
  ("fullstory.com", ⟨"FullStory", "analytics", ["session replay", "clicks", "mouse movement", "form inputs"]⟩),
  ("newrelic.com", ⟨"New Relic", "analytics", ["performance data", "error tracking", "user sessions"]⟩),
  ("sentry.io", ⟨"Sentry", "analytics", ["error reports", "stack traces", "user context"]⟩),
  ("plausible.io", ⟨"Plausible", "analytics", ["page views (privacy-friendly, no cookies)"]⟩),
  ("intercom.io", ⟨"Intercom", "customer_data", ["user identity", "chat messages", "behavioral data"]⟩),
  ("zendesk.com", ⟨"Zendesk", "customer_data", ["support tickets", "user identity"]⟩),
  ("hubspot.com", ⟨"HubSpot", "customer_data", ["form submissions", "email tracking", "CRM data"]⟩),
  ("hs-analytics.net", ⟨"HubSpot Analytics", "customer_data", ["page views", "form interactions", "email opens"]⟩),
  ("salesforce.com", ⟨"Salesforce", "customer_data", ["CRM data", "user interactions"]⟩),
  ("drift.com", ⟨"Drift", "customer_data", ["chat messages", "user identity", "browsing behavior"]⟩),
  ("platform.twitter.com", ⟨"Twitter Embed", "social", ["page views", "user preferences"]⟩),
  ("platform.instagram.com", ⟨"Instagram Embed", "social", ["page views"]⟩),
  ("apis.google.com", ⟨"Google APIs", "social", ["authentication data"]⟩)]

/-- One entry of `ENFORCEMENT_CASES` (the display strings `fine`, `authority`
and `violation` are presentational and not carried; `fine_usd` is the number
the matcher sorts on). -/
structure Case where
  company : String
  fine_usd : Int
  year : Nat
  tags : List String
deriving Repr, DecidableEq

/-- `ENFORCEMENT_CASES` of knowledge_base.py, in list order. -/
def ENFORCEMENT_CASES : List Case := [
  ⟨"Meta/Facebook", 1300000000, 2023, ["cross_border", "data_transfer"]⟩,
  ⟨"Meta/Facebook", 425000000, 2023, ["advertising", "consent", "legal_basis"]⟩,
  ⟨"Google", 163000000, 2022, ["cookies", "consent"]⟩,
  ⟨"Facebook", 65000000, 2022, ["cookies", "consent"]⟩,
  ⟨"Amazon Europe", 812000000, 2021, ["advertising", "consent"]⟩,
  ⟨"Epic Games/Fortnite", 275000000, 2022, ["children", "coppa", "consent"]⟩,
  ⟨"Sephora", 1200000, 2022, ["advertising", "disclosure", "ccpa"]⟩,
  ⟨"BetterHelp", 7800000, 2023, ["advertising", "disclosure", "health_data"]⟩,
  ⟨"Google", 391500000, 2022, ["location", "disclosure", "deceptive"]⟩,
  ⟨"Clearview AI", 22000000, 2022, ["biometric", "consent", "disclosure"]⟩,
  ⟨"TikTok", 345000000, 2023, ["children", "transparency", "consent"]⟩,
  ⟨"Deutsche Wohnen", 14500000, 2019, ["retention", "deletion"]⟩,
  ⟨"Deliveroo", 2500000, 2021, ["minimization", "excessive_collection"]⟩,
  ⟨"Amazon/Alexa", 25000000, 2023, ["children", "retention", "location"]⟩,
  ⟨"H&M", 38000000, 2020, ["employee_data", "excessive_collection"]⟩,
  ⟨"WhatsApp", 245000000, 2021, ["transparency", "disclosure", "sharing"]⟩]

/-- `len(set(tags) & set(case.tags))`: the number of distinct query tags that
also occur among the case's tags. -/
def tagOverlap (tags : List String) (c : Case) : Nat :=
  ((tags.dedup).filter (fun t => c.tags.contains t)).length

/-- Python's sort key for scored cases is `(-overlap, -fine_usd)`; this is the
strict "sorts earlier" comparison between two scored entries. -/
def scoredLT (a b : Nat × Case) : Bool :=
  decide (b.1 < a.1) || (decide (a.1 = b.1) && decide (b.2.fine_usd < a.2.fine_usd))

/-- The non-strict "sorts no later than" companion of `scoredLT`: entry `a`
may stand before entry `b` in the sorted order (more overlap, or equal
overlap and no smaller fine). -/
def scoredKeyLE (a b : Nat × Case) : Prop :=
  b.1 < a.1 ∨ (a.1 = b.1 ∧ b.2.fine_usd ≤ a.2.fine_usd)

/-- Stable insertion of one scored entry: it passes every entry that sorts
strictly earlier and lands before the first entry that does not (so entries
with an equal key keep their original relative order, as Python's stable
`list.sort` does). -/
def insertScored (h : Nat × Case) : List (Nat × Case) → List (Nat × Case)
  | [] => [h]
  | x :: xs => if scoredLT x h then x :: insertScored h xs else h :: x :: xs

/-- Stable sort of the scored list by the key `(-overlap, -fine_usd)`. -/
def sortScored : List (Nat × Case) → List (Nat × Case)
  | [] => []
  | h :: t => insertScored h (sortScored t)

/-- `find_relevant_cases` of knowledge_base.py: score every catalogued case
by tag overlap, keep the positive-overlap ones, sort by most matches then
largest fine, return the first `limit`. -/
def find_relevant_cases (tags : List String) (limit : Nat := 2) : List Case :=
  let scored := ENFORCEMENT_CASES.filterMap (fun c =>
    let ov := tagOverlap tags c
    if 0 < ov then some (ov, c) else none)
  ((sortScored scored).take limit).map Prod.snd

/- ===== crawler.py: detect_trackers ===== -/

/-- The `tracker_functions` table of `detect_trackers`: inline JavaScript
call fragments mapped to the tracker taxonomy, in dict insertion order. -/
def tracker_functions : List (String × SigInfo) := [
  ("gtag(", ⟨"Google Analytics/Ads", "analytics", ["page views", "events", "conversions"]⟩),
  ("ga('", ⟨"Google Analytics (Legacy)", "analytics", ["page views", "user behavior"]⟩),
  ("ga(\"", ⟨"Google Analytics (Legacy)", "analytics", ["page views", "user behavior"]⟩),
  ("fbq(", ⟨"Meta Pixel", "advertising", ["page views", "custom events", "conversions"]⟩),
  ("ttq.", ⟨"TikTok Pixel", "advertising", ["page views", "events", "device fingerprint"]⟩),
  ("twq(", ⟨"Twitter/X Pixel", "advertising", ["page views", "conversion events"]⟩),
  ("pintrk(", ⟨"Pinterest Tag", "advertising", ["page views", "conversion events"]⟩),
  ("snaptr(", ⟨"Snapchat Pixel", "advertising", ["page views", "conversion events"]⟩),
  ("lintrk(", ⟨"LinkedIn Insight", "advertising", ["page views", "professional data"]⟩),
  ("_hj(", ⟨"Hotjar", "analytics", ["session recordings", "heatmaps", "clicks"]⟩),
  ("hj(", ⟨"Hotjar", "analytics", ["session recordings", "heatmaps", "clicks"]⟩),
  ("clarity(", ⟨"Microsoft Clarity", "analytics", ["session recordings", "heatmaps"]⟩),
  ("mixpanel", ⟨"Mixpanel", "analytics", ["user events", "funnels", "user properties"]⟩),
  ("amplitude", ⟨"Amplitude", "analytics", ["user events", "behavioral analytics"]⟩),
  ("segment.", ⟨"Segment", "analytics", ["all event data", "user profiles"]⟩),
  ("optimizely", ⟨"Optimizely", "analytics", ["A/B test data", "user segments"]⟩),
  ("heap.track", ⟨"Heap Analytics", "analytics", ["auto-captured events", "sessions"]⟩),
  ("intercom(", ⟨"Intercom", "customer_data", ["user identity", "chat messages"]⟩),
  ("Intercom(", ⟨"Intercom", "customer_data", ["user identity", "chat messages"]⟩)]

/-- Keep the first tracker of each canonical name (the final dedup loop of
`detect_trackers`). -/
def dedupByName : List String → List Tracker → List Tracker
  | _, [] => []
  | seen, t :: ts =>
    if seen.contains t.name then dedupByName seen ts
    else t :: dedupByName (t.name :: seen) ts

/-- `detect_trackers(html, soup)` of crawler.py.  The parsed-markup side of
the soup is embedded as the list of script `src` values and the list of img
`src` values found in the page, which is all the function reads from it.
Channels, in source order: full-HTML substring scan against the signature
catalogue, inline function-call scan over the raw HTML, script-src scan and
img-src scan against the catalogue, then dedup by canonical name. -/
def detect_trackers (html : String) (scriptSrcs imgSrcs : List String) : List Tracker :=
  let html_lower := lowerStr html
  let found1 := TRACKER_SIGNATURES.filterMap (fun p =>
    if strContains html_lower (lowerStr p.1) then
      some { name := p.2.name, category := p.2.cat, data_shared := p.2.data,
             signature := p.1, source := "html" }
    else none)
  let found2 := tracker_functions.foldl (fun found p =>
    if strContains html p.1 && !(found.any (fun t => t.name == p.2.name)) then
      found ++ [{ name := p.2.name, category := p.2.cat, data_shared := p.2.data,
                  signature := stripEnds p.1 ['(', '.', '\'', '"'], source := "inline_script" }]
    else found) found1
  let found3 := scriptSrcs.foldl (fun found src =>
    TRACKER_SIGNATURES.foldl (fun found p =>
      if strContains (lowerStr src) (lowerStr p.1) && !(found.any (fun t => t.name == p.2.name)) then
        found ++ [{ name := p.2.name, category := p.2.cat, data_shared := p.2.data,
                    signature := p.1, source := "script_src" }]
      else found) found) found2
  let found4 := imgSrcs.foldl (fun found src =>
    TRACKER_SIGNATURES.foldl (fun found p =>
      if strContains (lowerStr src) (lowerStr p.1) && !(found.any (fun t => t.name == p.2.name)) then
        found ++ [{ name := p.2.name, category := p.2.cat, data_shared := p.2.data,
                    signature := p.1, source := "pixel_img" }]
      else found) found) found3
  dedupByName [] found4

/- ===== gap_analyzer.py: analyze_gaps ===== -/

/-- One emitted gap.  Carried fields: `severity`, `regulation`, `fine_raw`
(the integer risk amount the formatted `fine` string is printed from) and
`tags` (the rule's tag set, also the case-matcher query).  The prose fields
(`title`, `fine`, `claim`, `actual`, `enforcement`) are presentational and
not carried. -/
structure Gap where
  severity : String
  regulation : String
  fine_raw : Int
  tags : List String
deriving Repr, DecidableEq

/-- One entry of `risk_by_regulation` (name and amount; the `detail` prose is
presentational). -/
structure RiskBucket where
  name : String
  amount : Int
deriving Repr, DecidableEq

/-- The report dict returned by `analyze_gaps`.  The indeterminate branch
carries a `note` string; the ordinary branch has no `note` key, embedded as
`none`. -/
structure GapReport where
  gaps : List Gap
  total_gaps : Nat
  critical_count : Nat
  warning_count : Nat
  info_count : Nat
  total_risk_exposure : Int
  risk_after_fix : Int
  risk_by_regulation : List RiskBucket
  compliance_score : Int
  note : Option String
deriving Repr, DecidableEq

/-- `policy_text = crawl_data.get("privacy_policy_text", "").lower()`. -/
def policyTextOf (cd : CrawlData) : String := lowerStr cd.privacy_policy_text

/-- `has_policy = len(policy_text) > 200`. -/
def hasPolicy (cd : CrawlData) : Bool := decide (200 < (policyTextOf cd).length)

/-- GAP 1, undisclosed advertising trackers: fires whenever
advertising-category trackers exist; severity critical when the undisclosed
list is non-empty (it always is without policy text); risk is the ad-tracker
count times 68000. -/
def gapAds (trackers : List Tracker) (policy_text : String) (has_policy : Bool) : Option Gap :=
  let ad_trackers := trackers.filter (fun t => t.category == "advertising")
  if ad_trackers.isEmpty then none
  else
    let undisclosed :=
      if has_policy then
        (ad_trackers.filter (fun t =>
          !(strContains policy_text (firstWordLower t.name)) &&
          !(strContains policy_text (lowerStr t.signature)))).map (fun t => t.name)
      else ad_trackers.map (fun t => t.name)
    some { severity := if undisclosed.isEmpty then "warning" else "critical",
           regulation := "CCPA §1798.140(e) · CCPA §1798.115 · GDPR Art. 13(1)(e)",
           fine_raw := (ad_trackers.length : Int) * 68000,
           tags := ["advertising", "disclosure"] }

/-- The non-ad analytics rule: only with high-confidence policy text, fires
when some analytics tracker's first name word is absent from the text; risk
is 15000 per undisclosed tool. -/
def gapAnalytics (trackers : List Tracker) (policy_text : String) (has_policy : Bool) : Option Gap :=
  let analytics_trackers := trackers.filter (fun t => t.category == "analytics")
  if analytics_trackers.isEmpty || !has_policy then none
  else
    let undisclosed_analytics := (analytics_trackers.filter (fun t =>
      !(strContains policy_text (firstWordLower t.name)))).map (fun t => t.name)
    if undisclosed_analytics.isEmpty then none
    else
      some { severity := "warning",
             regulation := "GDPR Art. 13(1)(e) · CCPA §1798.100(b)",
             fine_raw := (undisclosed_analytics.length : Int) * 15000,
             tags := ["analytics", "disclosure"] }

/-- GAP 2, cookie consent issues: fires whenever the consent-banner analysis
recorded any issue; fixed risk 180000, severity critical. -/
def gapConsent (consent : ConsentBanner) : Option Gap :=
  if consent.issues.isEmpty then none
  else
    some { severity := "critical",
           regulation := "GDPR Art. 7 · ePrivacy Directive Art. 5(3) · CCPA §1798.120",
           fine_raw := 180000,
           tags := ["cookies", "consent"] }

/-- GAP 3, location data: fires when geolocation signals exist and the
policy (when present) lacks every location keyword; fixed risk 2100000. -/
def gapLocation (signals : List Signal) (policy_text : String) (has_policy : Bool) : Option Gap :=
  let location_signals := signals.filter (fun s => s.category == "geolocation")
  if location_signals.isEmpty then none
  else
    let location_in_policy := has_policy &&
      (["location", "geolocation", "gps", "geographic"].any (fun w => strContains policy_text w))
    if location_in_policy then none
    else
      some { severity := "critical",
             regulation := "GDPR Art. 13(1)(e) · CCPA §1798.100(b)",
             fine_raw := 2100000,
             tags := ["location", "disclosure"] }

/-- GAP 4, session recording: analogous for session-recording signals;
fixed risk 95000, severity warning. -/
def gapSession (signals : List Signal) (policy_text : String) (has_policy : Bool) : Option Gap :=
  let recording_signals := signals.filter (fun s => s.category == "session_recording")
  if recording_signals.isEmpty then none
  else
    let recording_in_policy := has_policy &&
      (["session recording", "session replay", "screen recording", "hotjar", "fullstory",
        "clarity"].any (fun w => strContains policy_text w))
    if recording_in_policy then none
    else
      some { severity := "warning",
             regulation := "GDPR Art. 13 · CCPA §1798.100(b) · ePrivacy Art. 5(3)",
             fine_raw := 95000,
             tags := ["recording", "transparency"] }

/-- GAP 5, data retention (policy-gated): fires when no specific-period
keyword is present (the source's disjunct `vague and not specific` is kept
as written); fixed risk 45000. -/
def gapRetention (policy_text : String) : Option Gap :=
  let retention_keywords := ["retention period", "retain your data for", "store your data for",
    "delete after", "retained for", "keep your data for", "days", "months", "years"]
  let has_specific_retention := retention_keywords.any (fun kw => strContains policy_text kw)
  let vague_retention := ["as long as necessary", "as needed", "reasonable period"].any
    (fun w => strContains policy_text w)
  if !has_specific_retention || (vague_retention && !has_specific_retention) then
    some { severity := "warning",
           regulation := "GDPR Art. 13(2)(a) · CCPA §1798.100(a)(3)",
           fine_raw := 45000,
           tags := ["retention", "transparency"] }
  else none

/-- The fixed rights taxonomy of GAP 6 with each right's keyword list. -/
def rights_keywords : List (String × List String) := [
  ("access", ["right to access", "right of access", "access your data", "request a copy",
    "access request"]),
  ("deletion", ["right to deletion", "right to erasure", "delete your data",
    "right to be forgotten", "request deletion"]),
  ("portability", ["data portability", "portable format", "machine-readable",
    "export your data"]),
  ("objection", ["right to object", "object to processing", "opt out of processing"]),
  ("opt_out_sale", ["do not sell", "opt-out of sale", "opt out of the sale", "do not share"])]

/-- GAP 6, missing rights disclosure (policy-gated): fires when at least two
rights of the taxonomy lack keyword evidence; risk 8000 per missing right,
severity warning from three missing rights, info at two. -/
def gapRights (policy_text : String) : Option Gap :=
  let missing_rights := (rights_keywords.filter (fun rk =>
    !(rk.2.any (fun kw => strContains policy_text kw)))).map (fun rk => rk.1)
  if 2 ≤ missing_rights.length then
    some { severity := if 3 ≤ missing_rights.length then "warning" else "info",
           regulation := "GDPR Art. 15-22 · CCPA §1798.100-125",
           fine_raw := 8000 * (missing_rights.length : Int),
           tags := ["rights", "transparency"] }
  else none

/-- GAP 7, cross-border transfers (policy-gated): fires when trackers of
US-headquartered providers exist and no transfer keyword appears; fixed
risk 35000, severity info. -/
def gapTransfers (trackers : List Tracker) (policy_text : String) : Option Gap :=
  let us_trackers := trackers.filter (fun t =>
    ["google", "meta", "facebook", "amazon", "microsoft", "tiktok"].any
      (fun x => strContains (lowerStr t.name) x))
  let transfer_in_policy := ["international transfer", "cross-border", "data transfer",
    "standard contractual", "adequacy decision", "transfer outside", "transferred to",
    "united states"].any (fun w => strContains policy_text w)
  if !us_trackers.isEmpty && !transfer_in_policy then
    some { severity := "info",
           regulation := "GDPR Art. 44-49",
           fine_raw := 35000,
           tags := ["cross_border", "data_transfer"] }
  else none

/-- GAP 8, children's data (policy-gated): fires when the policy has no
age/children keyword at all; fixed risk 5000, severity info. -/
def gapChildren (policy_text : String) : Option Gap :=
  let children_in_policy := ["children", "child", "minor", "under 13", "under 16", "coppa",
    "parental consent", "age"].any (fun w => strContains policy_text w)
  if children_in_policy then none
  else
    some { severity := "info",
           regulation := "COPPA · GDPR Art. 8 · UK AADC",
           fine_raw := 5000,
           tags := ["children", "coppa"] }

/-- The sensitive-field keyword list of the excessive-form-fields rule. -/
def sensitiveFieldKeys : List String := ["phone", "tel", "mobile", "birth", "dob", "age",
  "address", "street", "zip", "postal", "ssn", "social security", "gender", "sex"]

/-- The required form fields whose names match a sensitive keyword, in form
and field order (the `excessive_fields` accumulation loop). -/
def excessiveFields (forms : List Form) : List String :=
  (forms.map (fun form => form.fields.filterMap (fun f =>
    if sensitiveFieldKeys.any (fun x => strContains (lowerStr f.name) x) then
      (if f.required then some f.name else none)
    else none))).flatten

/-- The excessive-form-fields rule: fires independent of policy confidence;
risk 12000 per flagged field, severity warning.  (The policy text only feeds
this rule's presentational `claim` string, which is not carried.) -/
def gapForms (forms : List Form) : Option Gap :=
  let excessive := excessiveFields forms
  if excessive.isEmpty then none
  else
    some { severity := "warning",
           regulation := "GDPR Art. 5(1)(c) — Data Minimization",
           fine_raw := 12000 * (excessive.length : Int),
           tags := ["minimization", "excessive_collection"] }

/-- The `gaps` list as accumulated by `analyze_gaps` before sorting: each
rule appends at most one gap, in source order; the policy-gated block (GAPs
5 to 8 of the source comments) only runs with high-confidence policy text. -/
def buildGaps (cd : CrawlData) : List Gap :=
  let policy_text := policyTextOf cd
  let has_policy := hasPolicy cd
  (gapAds cd.trackers_found policy_text has_policy).toList ++
  (gapAnalytics cd.trackers_found policy_text has_policy).toList ++
  (gapConsent cd.consent_banner).toList ++
  (gapLocation cd.data_collection_signals policy_text has_policy).toList ++
  (gapSession cd.data_collection_signals policy_text has_policy).toList ++
  (if has_policy then
    (gapRetention policy_text).toList ++
    (gapRights policy_text).toList ++
    (gapTransfers cd.trackers_found policy_text).toList ++
    (gapChildren policy_text).toList
  else []) ++
  (gapForms cd.forms_detected).toList

/-- `severity_order = {"critical": 0, "warning": 1, "info": 2}` with default
3 for anything else. -/
def sevRank (s : String) : Nat :=
  if s == "critical" then 0 else if s == "warning" then 1 else if s == "info" then 2 else 3

/-- Stable insertion of one gap by severity rank (Python's `list.sort` is
stable, so a gap passes exactly the gaps of strictly smaller rank). -/
def insertGap (g : Gap) : List Gap → List Gap
  | [] => [g]
  | x :: xs => if sevRank x.severity < sevRank g.severity then x :: insertGap g xs
               else g :: x :: xs

/-- `gaps.sort(key=severity_order.get(...))`: stable sort by severity rank. -/
def sortGaps : List Gap → List Gap
  | [] => []
  | g :: gs => insertGap g (sortGaps gs)

/-- `analyze_gaps(crawl_data)` of gap_analyzer.py.  The rules accumulate the
gap list and `total_risk` (each fired rule adds exactly its gap's `fine_raw`,
so the accumulator equals the sum over the list); when nothing fired and no
policy text was retrieved the explicit indeterminate report is returned,
otherwise the report with the fixed-proportion risk split, the severity
counts of the sorted list and the compliance score. -/
def analyze_gaps (cd : CrawlData) : GapReport :=
  let gaps := buildGaps cd
  let total_risk : Int := (gaps.map (fun g => g.fine_raw)).sum
  let has_policy := hasPolicy cd
  if gaps.isEmpty && !has_policy then
    { gaps := [],
      total_gaps := 0, critical_count := 0, warning_count := 0, info_count := 0,
      total_risk_exposure := 0, risk_after_fix := 0,
      risk_by_regulation := [⟨"GDPR", 0⟩, ⟨"CCPA/CPRA", 0⟩, ⟨"State Laws", 0⟩],
      compliance_score := 0,
      note := some "Unable to retrieve privacy policy. Use Advanced Options to paste policy text for a complete analysis." }
  else
    let gdpr_risk := total_risk * 58 / 100
    let ccpa_risk := total_risk * 28 / 100
    let state_risk := total_risk - gdpr_risk - ccpa_risk
    let sorted := sortGaps gaps
    let critical_count := (sorted.filter (fun g => g.severity == "critical")).length
    let gap_count := sorted.length
    { gaps := sorted,
      total_gaps := gap_count,
      critical_count := critical_count,
      warning_count := (sorted.filter (fun g => g.severity == "warning")).length,
      info_count := (sorted.filter (fun g => g.severity == "info")).length,
      total_risk_exposure := total_risk,
      risk_after_fix := if 0 < total_risk then max (total_risk / 200) 500 else 0,
      risk_by_regulation := [⟨"GDPR", gdpr_risk⟩, ⟨"CCPA/CPRA", ccpa_risk⟩,
        ⟨"State Laws", state_risk⟩],
      compliance_score :=
        if 0 < gap_count then max 5 (100 - ((gap_count : Int) * 9) - ((critical_count : Int) * 8))
        else if has_policy then 85 else 0,
      note := none }

/- ===== concrete inputs used by the witnesses and counterexamples ===== -/

/-- Scenario A markup: a page whose only privacy-relevant content is one
script tag sourced from googletagmanager.com. -/
def pageA_html : String :=
  "<html><head><script src=\"https://www.googletagmanager.com/gtm.js\"></script></head><body>welcome</body></html>"

/-- The script src values of the scenario A page. -/
def pageA_scripts : List String := ["https://www.googletagmanager.com/gtm.js"]

/-- A consent-banner record with no recorded issues. -/
def quietConsent : ConsentBanner := ⟨false, none, []⟩

/-- A lower-case policy text longer than 200 characters that names a
specific retention period, four of the five catalogued rights and an age
restriction, so that no policy-gated rule fires on it. -/
def polGood : String :=
  "we keep your data for 30 days. you have the right to access, the right to deletion, data portability, and the right to object. users must be over the age of 16. this privacy policy describes our handling of personal data."

/-- Good policy, no findings at all: zero gaps with policy retrieved. -/
def cdMono2 : CrawlData := ⟨[], [], [], quietConsent, polGood⟩

/-- Good policy plus one analytics tracker that the policy does not name:
exactly one warning gap. -/
def cdMono1 : CrawlData :=
  ⟨[⟨"Mixpanel", "analytics", ["user events", "funnels", "user properties"],
    "mixpanel.com", "html"⟩], [], [], quietConsent, polGood⟩

/-- As `cdMono1` plus a required phone form field: two warning gaps. -/
def cdMono3 : CrawlData :=
  ⟨[⟨"Mixpanel", "analytics", ["user events", "funnels", "user properties"],
    "mixpanel.com", "html"⟩],
   [⟨"self", "POST", [⟨"phone", "text", true⟩]⟩], [], quietConsent, polGood⟩

/-- The empty evidence record: nothing found, no policy text. -/
def cdEmpty : CrawlData := ⟨[], [], [], quietConsent, ""⟩

/-- No trackers, no signals, no consent issues, no policy text, but one form
with a required phone field. -/
def cdFormOnly : CrawlData :=
  ⟨[], [⟨"self", "POST", [⟨"phone", "text", true⟩]⟩], [], quietConsent, ""⟩

/-- Evidence with a single recorded consent issue. -/
def cdOneIssue : CrawlData :=
  ⟨[], [], [], ⟨true, some "OneTrust",
    ["No granular cookie category controls detected"]⟩, ""⟩

/-- Evidence with three recorded consent issues. -/
def cdThreeIssues : CrawlData :=
  ⟨[], [], [], ⟨false, none,
    ["No cookie consent banner detected",
     "No granular cookie category controls detected",
     "Tracking scripts load before user consent is given"]⟩, ""⟩

/-- Short policy text with an advertising tracker, an analytics tracker, a
geolocation signal and a consent issue: the evidence-based rules fire, the
policy-gated ones may not. -/
def cdNoPolicy : CrawlData :=
  ⟨[⟨"Meta Pixel", "advertising", ["page views", "custom events"], "facebook.net", "html"⟩,
    ⟨"Mixpanel", "analytics", ["user events"], "mixpanel.com", "html"⟩],
   [],
   [⟨"geolocation", "navigator.geolocation", "Geolocation API detected — collecting user location"⟩],
   ⟨true, some "OneTrust", ["No granular cookie category controls detected"]⟩,
   "short"⟩

/- ===== helper lemmas ===== -/

theorem mem_option_toList {α : Type} {o : Option α} {x : α} :
    x ∈ o.toList ↔ o = some x := by
  cases o <;> simp [eq_comm]

theorem mem_insertGap {g x : Gap} {l : List Gap} :
    x ∈ insertGap g l ↔ x = g ∨ x ∈ l := by
  induction l with
  | nil => simp [insertGap]
  | cons a t ih =>
    unfold insertGap
    split
    · simp [ih]; tauto
    · simp [List.mem_cons]

theorem mem_sortGaps {x : Gap} {l : List Gap} :
    x ∈ sortGaps l ↔ x ∈ l := by
  induction l with
  | nil => simp [sortGaps]
  | cons a t ih => simp [sortGaps, mem_insertGap, ih]

theorem analyze_gaps_mem_iff {cd : CrawlData} {g : Gap} :
    g ∈ (analyze_gaps cd).gaps ↔ g ∈ buildGaps cd := by
  by_cases h : ((buildGaps cd).isEmpty && !hasPolicy cd) = true
  · have hand := (Bool.and_eq_true _ _).mp h
    have hempty : buildGaps cd = [] := List.isEmpty_iff.mp hand.1
    have hpol : hasPolicy cd = false := by simpa using hand.2
    simp [analyze_gaps, hempty, hpol]
  · simp [analyze_gaps, h, mem_sortGaps]

theorem ite_eq_or {c : Prop} [Decidable c] {α : Type} (a b : α) :
    (if c then a else b) = a ∨ (if c then a else b) = b := by
  split
  · exact Or.inl rfl
  · exact Or.inr rfl

theorem gapAds_shape {tr : List Tracker} {pt : String} {hp : Bool} {g : Gap}
    (h : gapAds tr pt hp = some g) :
    g.tags = ["advertising", "disclosure"] ∧
    g.fine_raw = ((tr.filter (fun t => t.category == "advertising")).length : Int) * 68000 ∧
    (g.severity = "critical" ∨ g.severity = "warning") := by
  simp only [gapAds] at h
  split at h
  · exact Option.noConfusion h
  · have h2 := Option.some.inj h
    subst h2
    exact ⟨rfl, rfl, Or.elim (ite_eq_or _ _) Or.inr Or.inl⟩

theorem gapAds_fires {tr : List Tracker} (pt : String) (hp : Bool)
    (h : tr.filter (fun t => t.category == "advertising") ≠ []) :
    ∃ g, gapAds tr pt hp = some g := by
  simp only [gapAds]
  rw [if_neg]
  · exact ⟨_, rfl⟩
  · simpa [List.isEmpty_iff] using h

theorem gapAnalytics_shape {tr : List Tracker} {pt : String} {hp : Bool} {g : Gap}
    (h : gapAnalytics tr pt hp = some g) :
    g.tags = ["analytics", "disclosure"] ∧ 0 ≤ g.fine_raw ∧ g.severity = "warning" := by
  simp only [gapAnalytics] at h
  split at h
  · exact Option.noConfusion h
  · split at h
    · exact Option.noConfusion h
    · have h2 := Option.some.inj h
      subst h2
      exact ⟨rfl, by positivity, rfl⟩

theorem gapAnalytics_gated {tr : List Tracker} {pt : String} :
    gapAnalytics tr pt false = none := by
  simp [gapAnalytics]

theorem gapConsent_shape {c : ConsentBanner} {g : Gap}
    (h : gapConsent c = some g) :
    g.tags = ["cookies", "consent"] ∧ g.fine_raw = 180000 ∧ g.severity = "critical" := by
  simp only [gapConsent] at h
  split at h
  · exact Option.noConfusion h
  · have h2 := Option.some.inj h
    subst h2
    exact ⟨rfl, rfl, rfl⟩

theorem gapConsent_fires {c : ConsentBanner} (h : c.issues ≠ []) :
    ∃ g, gapConsent c = some g := by
  simp only [gapConsent]
  rw [if_neg]
  · exact ⟨_, rfl⟩
  · simpa [List.isEmpty_iff] using h

theorem gapLocation_shape {si : List Signal} {pt : String} {hp : Bool} {g : Gap}
    (h : gapLocation si pt hp = some g) :
    g.tags = ["location", "disclosure"] ∧ g.fine_raw = 2100000 ∧ g.severity = "critical" := by
  simp only [gapLocation] at h
  split at h
  · exact Option.noConfusion h
  · split at h
    · exact Option.noConfusion h
    · have h2 := Option.some.inj h
      subst h2
      exact ⟨rfl, rfl, rfl⟩

theorem gapSession_shape {si : List Signal} {pt : String} {hp : Bool} {g : Gap}
    (h : gapSession si pt hp = some g) :
    g.tags = ["recording", "transparency"] ∧ g.fine_raw = 95000 ∧ g.severity = "warning" := by
  simp only [gapSession] at h
  split at h
  · exact Option.noConfusion h
  · split at h
    · exact Option.noConfusion h
    · have h2 := Option.some.inj h
      subst h2
      exact ⟨rfl, rfl, rfl⟩

theorem gapRetention_shape {pt : String} {g : Gap}
    (h : gapRetention pt = some g) :
    g.tags = ["retention", "transparency"] ∧ g.fine_raw = 45000 ∧ g.severity = "warning" := by
  simp only [gapRetention] at h
  split at h
  · have h2 := Option.some.inj h
    subst h2
    exact ⟨rfl, rfl, rfl⟩
  · exact Option.noConfusion h

theorem gapRights_shape {pt : String} {g : Gap}
    (h : gapRights pt = some g) :
    g.tags = ["rights", "transparency"] ∧ 0 ≤ g.fine_raw ∧
    (g.severity = "warning" ∨ g.severity = "info") := by
  simp only [gapRights] at h
  split at h
  · have h2 := Option.some.inj h
    subst h2
    exact ⟨rfl, by positivity, ite_eq_or _ _⟩
  · exact Option.noConfusion h

theorem gapTransfers_shape {tr : List Tracker} {pt : String} {g : Gap}
    (h : gapTransfers tr pt = some g) :
    g.tags = ["cross_border", "data_transfer"] ∧ g.fine_raw = 35000 ∧ g.severity = "info" := by
  simp only [gapTransfers] at h
  split at h
  · have h2 := Option.some.inj h
    subst h2
    exact ⟨rfl, rfl, rfl⟩
  · exact Option.noConfusion h

theorem gapChildren_shape {pt : String} {g : Gap}
    (h : gapChildren pt = some g) :
    g.tags = ["children", "coppa"] ∧ g.fine_raw = 5000 ∧ g.severity = "info" := by
  simp only [gapChildren] at h
  split at h
  · exact Option.noConfusion h
  · have h2 := Option.some.inj h
    subst h2
    exact ⟨rfl, rfl, rfl⟩

theorem gapForms_shape {fo : List Form} {g : Gap}
    (h : gapForms fo = some g) :
    g.tags = ["minimization", "excessive_collection"] ∧ 0 ≤ g.fine_raw ∧
    g.severity = "warning" := by
  simp only [gapForms] at h
  split at h
  · exact Option.noConfusion h
  · have h2 := Option.some.inj h
    subst h2
    exact ⟨rfl, by positivity, rfl⟩

theorem buildGaps_cases {cd : CrawlData} {g : Gap} (h : g ∈ buildGaps cd) :
    gapAds cd.trackers_found (policyTextOf cd) (hasPolicy cd) = some g ∨
    gapAnalytics cd.trackers_found (policyTextOf cd) (hasPolicy cd) = some g ∨
    gapConsent cd.consent_banner = some g ∨
    gapLocation cd.data_collection_signals (policyTextOf cd) (hasPolicy cd) = some g ∨
    gapSession cd.data_collection_signals (policyTextOf cd) (hasPolicy cd) = some g ∨
    (hasPolicy cd = true ∧
      (gapRetention (policyTextOf cd) = some g ∨
       gapRights (policyTextOf cd) = some g ∨
       gapTransfers cd.trackers_found (policyTextOf cd) = some g ∨
       gapChildren (policyTextOf cd) = some g)) ∨
    gapForms cd.forms_detected = some g := by
  unfold buildGaps at h
  cases hp : hasPolicy cd <;>
    simp only [hp, if_true, if_false, List.mem_append, List.not_mem_nil, or_false,
      mem_option_toList] at h <;>
    tauto

theorem buildGaps_severity {cd : CrawlData} {g : Gap} (h : g ∈ buildGaps cd) :
    g.severity = "critical" ∨ g.severity = "warning" ∨ g.severity = "info" := by
  rcases buildGaps_cases h with hc | hc | hc | hc | hc | ⟨_, hc | hc | hc | hc⟩ | hc
  · rcases (gapAds_shape hc).2.2 with h1 | h1 <;> simp [h1]
  · simp [(gapAnalytics_shape hc).2.2]
  · simp [(gapConsent_shape hc).2.2]
  · simp [(gapLocation_shape hc).2.2]
  · simp [(gapSession_shape hc).2.2]
  · simp [(gapRetention_shape hc).2.2]
  · rcases (gapRights_shape hc).2.2 with h1 | h1 <;> simp [h1]
  · simp [(gapTransfers_shape hc).2.2]
  · simp [(gapChildren_shape hc).2.2]
  · simp [(gapForms_shape hc).2.2]

theorem buildGaps_fine_nonneg {cd : CrawlData} {g : Gap} (h : g ∈ buildGaps cd) :
    0 ≤ g.fine_raw := by
  rcases buildGaps_cases h with hc | hc | hc | hc | hc | ⟨_, hc | hc | hc | hc⟩ | hc
  · rw [(gapAds_shape hc).2.1]; positivity
  · exact (gapAnalytics_shape hc).2.1
  · rw [(gapConsent_shape hc).2.1]; norm_num
  · rw [(gapLocation_shape hc).2.1]; norm_num
  · rw [(gapSession_shape hc).2.1]; norm_num
  · rw [(gapRetention_shape hc).2.1]; norm_num
  · exact (gapRights_shape hc).2.1
  · rw [(gapTransfers_shape hc).2.1]; norm_num
  · rw [(gapChildren_shape hc).2.1]; norm_num
  · exact (gapForms_shape hc).2.1

theorem analyze_gaps_indet (cd : CrawlData)
    (hcond : ((buildGaps cd).isEmpty && !hasPolicy cd) = true) :
    analyze_gaps cd =
      { gaps := [],
        total_gaps := 0, critical_count := 0, warning_count := 0, info_count := 0,
        total_risk_exposure := 0, risk_after_fix := 0,
        risk_by_regulation := [⟨"GDPR", 0⟩, ⟨"CCPA/CPRA", 0⟩, ⟨"State Laws", 0⟩],
        compliance_score := 0,
        note := some "Unable to retrieve privacy policy. Use Advanced Options to paste policy text for a complete analysis." } := by
  simp [analyze_gaps, hcond]

theorem analyze_gaps_main (cd : CrawlData)
    (hcond : ((buildGaps cd).isEmpty && !hasPolicy cd) = false) :
    analyze_gaps cd =
      { gaps := sortGaps (buildGaps cd),
        total_gaps := (sortGaps (buildGaps cd)).length,
        critical_count := ((sortGaps (buildGaps cd)).filter (fun g => g.severity == "critical")).length,
        warning_count := ((sortGaps (buildGaps cd)).filter (fun g => g.severity == "warning")).length,
        info_count := ((sortGaps (buildGaps cd)).filter (fun g => g.severity == "info")).length,
        total_risk_exposure := ((buildGaps cd).map (fun g => g.fine_raw)).sum,
        risk_after_fix := if 0 < ((buildGaps cd).map (fun g => g.fine_raw)).sum then
            max (((buildGaps cd).map (fun g => g.fine_raw)).sum / 200) 500 else 0,
        risk_by_regulation := [⟨"GDPR", ((buildGaps cd).map (fun g => g.fine_raw)).sum * 58 / 100⟩,
          ⟨"CCPA/CPRA", ((buildGaps cd).map (fun g => g.fine_raw)).sum * 28 / 100⟩,
          ⟨"State Laws", ((buildGaps cd).map (fun g => g.fine_raw)).sum -
            ((buildGaps cd).map (fun g => g.fine_raw)).sum * 58 / 100 -
            ((buildGaps cd).map (fun g => g.fine_raw)).sum * 28 / 100⟩],
        compliance_score := if 0 < (sortGaps (buildGaps cd)).length then
            max 5 (100 - ((sortGaps (buildGaps cd)).length : Int) * 9 -
              (((sortGaps (buildGaps cd)).filter (fun g => g.severity == "critical")).length : Int) * 8)
          else if hasPolicy cd then 85 else 0,
        note := none } := by
  simp [analyze_gaps, hcond]

theorem score_spec (cd : CrawlData) :
    (analyze_gaps cd).compliance_score =
      if 0 < (analyze_gaps cd).total_gaps then
        max 5 (100 - ((analyze_gaps cd).total_gaps : Int) * 9 -
          ((analyze_gaps cd).critical_count : Int) * 8)
      else if hasPolicy cd then (85 : Int) else 0 := by
  by_cases h : ((buildGaps cd).isEmpty && !hasPolicy cd) = true
  · have hpol : hasPolicy cd = false := by
      simpa using ((Bool.and_eq_true _ _).mp h).2
    rw [analyze_gaps_indet cd h]
    simp [hpol]
  · rw [analyze_gaps_main cd (by simpa using h)]

theorem length_filter_three (l : List Gap)
    (h : ∀ g ∈ l, g.severity = "critical" ∨ g.severity = "warning" ∨ g.severity = "info") :
    l.length = (l.filter (fun g => g.severity == "critical")).length +
      ((l.filter (fun g => g.severity == "warning")).length +
        (l.filter (fun g => g.severity == "info")).length) := by
  induction l with
  | nil => rfl
  | cons a t ih =>
    have ht := ih (fun g hg => h g (List.mem_cons_of_mem a hg))
    have ha := h a (List.mem_cons_self a t)
    rcases ha with ha | ha | ha <;>
      simp [List.filter_cons, ha, ht,
        (by decide : (("critical" : String) == "warning") = false),
        (by decide : (("critical" : String) == "info") = false),
        (by decide : (("warning" : String) == "critical") = false),
        (by decide : (("warning" : String) == "info") = false),
        (by decide : (("info" : String) == "critical") = false),
        (by decide : (("info" : String) == "warning") = false)] <;>
      omega

theorem scoredLT_false_iff {a b : Nat × Case} :
    scoredLT a b = false ↔ scoredKeyLE b a := by
  simp only [scoredLT, scoredKeyLE, Bool.or_eq_false_iff, Bool.and_eq_false_iff,
    decide_eq_false_iff_not]
  omega

theorem scoredLT_true_le {a b : Nat × Case} (h : scoredLT a b = true) :
    scoredKeyLE a b := by
  simp only [scoredLT, Bool.or_eq_true, Bool.and_eq_true, decide_eq_true_eq] at h
  simp only [scoredKeyLE]
  omega

theorem scoredKeyLE_trans {a b c : Nat × Case}
    (h1 : scoredKeyLE a b) (h2 : scoredKeyLE b c) : scoredKeyLE a c := by
  simp only [scoredKeyLE] at h1 h2 ⊢
  omega

theorem mem_insertScored {h x : Nat × Case} {l : List (Nat × Case)} :
    x ∈ insertScored h l ↔ x = h ∨ x ∈ l := by
  induction l with
  | nil => simp [insertScored]
  | cons a t ih =>
    unfold insertScored
    split
    · simp [ih]; tauto
    · simp [List.mem_cons]

theorem insertScored_perm (h : Nat × Case) (l : List (Nat × Case)) :
    (insertScored h l).Perm (h :: l) := by
  induction l with
  | nil => exact List.Perm.refl _
  | cons x xs ih =>
    unfold insertScored
    split
    · exact (ih.cons x).trans (List.Perm.swap h x xs)
    · exact List.Perm.refl _

theorem sortScored_perm (l : List (Nat × Case)) : (sortScored l).Perm l := by
  induction l with
  | nil => exact List.Perm.refl _
  | cons h t ih => exact (insertScored_perm h (sortScored t)).trans (ih.cons h)

theorem insertScored_pairwise {h : Nat × Case} {l : List (Nat × Case)}
    (hl : l.Pairwise scoredKeyLE) : (insertScored h l).Pairwise scoredKeyLE := by
  induction l with
  | nil => simp [insertScored]
  | cons x xs ih =>
    rcases List.pairwise_cons.mp hl with ⟨hx, hxs⟩
    unfold insertScored
    split
    · next hlt =>
      refine List.pairwise_cons.mpr ⟨?_, ih hxs⟩
      intro y hy
      rcases mem_insertScored.mp hy with rfl | hy'
      · exact scoredLT_true_le hlt
      · exact hx y hy'
    · next hlt =>
      have hle : scoredKeyLE h x :=
        scoredLT_false_iff.mp ((Bool.not_eq_true _).mp hlt)
      refine List.pairwise_cons.mpr ⟨?_, hl⟩
      intro y hy
      rcases List.mem_cons.mp hy with rfl | hy'
      · exact hle
      · exact scoredKeyLE_trans hle (hx y hy')

theorem sortScored_pairwise (l : List (Nat × Case)) :
    (sortScored l).Pairwise scoredKeyLE := by
  induction l with
  | nil => simp [sortScored]
  | cons h t ih => exact insertScored_pairwise ih

theorem scored_fst_eq {tags : List String} {x : Nat × Case}
    (hx : x ∈ ENFORCEMENT_CASES.filterMap (fun c =>
      let ov := tagOverlap tags c
      if 0 < ov then some (ov, c) else none)) :
    x.1 = tagOverlap tags x.2 := by
  rcases List.mem_filterMap.mp hx with ⟨c, _, hfc⟩
  dsimp only at hfc
  split at hfc
  · have h2 := Option.some.inj hfc
    subst h2
    rfl
  · exact Option.noConfusion hfc

theorem scored_map_snd (tags : List String) (l : List Case) :
    (l.filterMap (fun c =>
      let ov := tagOverlap tags c
      if 0 < ov then some (ov, c) else none)).map Prod.snd =
    l.filter (fun c => decide (0 < tagOverlap tags c)) := by
  induction l with
  | nil => rfl
  | cons c t ih =>
    by_cases h : 0 < tagOverlap tags c
    · simp only [List.filterMap_cons, List.filter_cons]
      simp [h, ih]
    · simp only [List.filterMap_cons, List.filter_cons]
      simp [h, ih]

/- ===== claim theorems ===== -/

/-- C1: for every evidence record whose privacy policy text is not
high-confidence (absent or not longer than the 200-character threshold),
`analyze_gaps` never emits a policy-gated gap: no undisclosed-analytics,
no retention, no incomplete-rights, no cross-border-transfer and no
children's-data gap appears in the returned gap list. -/
theorem c1_policy_gated_rules_silent (cd : CrawlData) (hp : hasPolicy cd = false) :
    ∀ g ∈ (analyze_gaps cd).gaps,
      g.tags ≠ ["analytics", "disclosure"] ∧ g.tags ≠ ["retention", "transparency"] ∧
      g.tags ≠ ["rights", "transparency"] ∧ g.tags ≠ ["cross_border", "data_transfer"] ∧
      g.tags ≠ ["children", "coppa"] := by
  intro g hg
  rcases buildGaps_cases (analyze_gaps_mem_iff.mp hg) with
    hc | hc | hc | hc | hc | ⟨hpt, _⟩ | hc
  · rw [(gapAds_shape hc).1]
    exact ⟨by decide, by decide, by decide, by decide, by decide⟩
  · rw [hp, gapAnalytics_gated] at hc
    exact Option.noConfusion hc
  · rw [(gapConsent_shape hc).1]
    exact ⟨by decide, by decide, by decide, by decide, by decide⟩
  · rw [(gapLocation_shape hc).1]
    exact ⟨by decide, by decide, by decide, by decide, by decide⟩
  · rw [(gapSession_shape hc).1]
    exact ⟨by decide, by decide, by decide, by decide, by decide⟩
  · rw [hp] at hpt
    exact Bool.noConfusion hpt
  · rw [(gapForms_shape hc).1]
    exact ⟨by decide, by decide, by decide, by decide, by decide⟩

/-- C1 witness: a record with an advertising tracker, an analytics tracker, a
geolocation signal, a consent issue and only five characters of policy text
has a non-empty gap list, and none of its gaps is policy-gated. -/
theorem c1_policy_gated_rules_silent_witness :
    hasPolicy cdNoPolicy = false ∧
    ∀ g ∈ (analyze_gaps cdNoPolicy).gaps,
      g.tags ≠ ["analytics", "disclosure"] ∧ g.tags ≠ ["retention", "transparency"] ∧
      g.tags ≠ ["rights", "transparency"] ∧ g.tags ≠ ["cross_border", "data_transfer"] ∧
      g.tags ≠ ["children", "coppa"] :=
  ⟨by decide, c1_policy_gated_rules_silent cdNoPolicy (by decide)⟩

/-- C4: the compliance score equals max(5, 100 − 9·gap_count −
8·critical_count) whenever at least one gap fired, the fixed baseline 85 when
no gap fired and high-confidence policy text was retrieved, and exactly 0
when no gap fired and no high-confidence policy text was retrieved. -/
theorem c4_compliance_score_formula (cd : CrawlData) :
    (analyze_gaps cd).compliance_score =
      if 0 < (analyze_gaps cd).total_gaps then
        max 5 (100 - 9 * ((analyze_gaps cd).total_gaps : Int) -
          8 * ((analyze_gaps cd).critical_count : Int))
      else if hasPolicy cd then (85 : Int) else 0 := by
  by_cases h : 0 < (analyze_gaps cd).total_gaps
  · rw [score_spec cd, if_pos h, if_pos h]
    congr 1
    ring
  · rw [score_spec cd, if_neg h, if_neg h]

/-- C3 (amended): the compliance score is monotonically non-increasing in the
gap count and critical count among reports in which at least one gap fired;
crossing from zero gaps to one gap can raise the score above the no-gap
baseline, so the restriction to fired reports is necessary. -/
theorem c3_score_monotone_with_gaps (cd1 cd2 : CrawlData)
    (hpol : hasPolicy cd1 = hasPolicy cd2)
    (h2 : 0 < (analyze_gaps cd2).total_gaps)
    (hg : (analyze_gaps cd2).total_gaps ≤ (analyze_gaps cd1).total_gaps)
    (hc : (analyze_gaps cd2).critical_count ≤ (analyze_gaps cd1).critical_count) :
    (analyze_gaps cd1).compliance_score ≤ (analyze_gaps cd2).compliance_score := by
  have h1 : 0 < (analyze_gaps cd1).total_gaps := lt_of_lt_of_le h2 hg
  rw [score_spec cd1, score_spec cd2, if_pos h1, if_pos h2]
  exact max_le_max le_rfl (by omega)

/-- C3 counterexample: two records agreeing on policy retrieval where the
report with more gaps and no fewer critical gaps scores strictly higher — one
undisclosed-analytics warning scores 91, the clean same-policy report scores
the 85 baseline. -/
theorem c3_monotonicity_counterexample :
    hasPolicy cdMono1 = hasPolicy cdMono2 ∧
    (analyze_gaps cdMono2).total_gaps ≤ (analyze_gaps cdMono1).total_gaps ∧
    (analyze_gaps cdMono2).critical_count ≤ (analyze_gaps cdMono1).critical_count ∧
    (analyze_gaps cdMono2).compliance_score < (analyze_gaps cdMono1).compliance_score := by
  decide

/-- C3 witness: the record with two warning gaps scores no higher than the
record with one warning gap under the same retrieved policy. -/
theorem c3_score_monotone_with_gaps_witness :
    hasPolicy cdMono3 = hasPolicy cdMono1 ∧
    0 < (analyze_gaps cdMono1).total_gaps ∧
    (analyze_gaps cdMono1).total_gaps ≤ (analyze_gaps cdMono3).total_gaps ∧
    (analyze_gaps cdMono1).critical_count ≤ (analyze_gaps cdMono3).critical_count ∧
    (analyze_gaps cdMono3).compliance_score ≤ (analyze_gaps cdMono1).compliance_score :=
  ⟨by decide, by decide, by decide, by decide,
    c3_score_monotone_with_gaps cdMono3 cdMono1 (by decide) (by decide) (by decide) (by decide)⟩

/-- C5: for every evidence record with at least one advertising-category
tracker, the report contains a tracker-disclosure gap whose raw risk amount
is the advertising-tracker count times the 68000 per-tracker constant. -/
theorem c5_ad_tracker_risk (cd : CrawlData)
    (h : cd.trackers_found.filter (fun t => t.category == "advertising") ≠ []) :
    ∃ g ∈ (analyze_gaps cd).gaps,
      g.tags = ["advertising", "disclosure"] ∧
      g.fine_raw =
        ((cd.trackers_found.filter (fun t => t.category == "advertising")).length : Int) * 68000 := by
  obtain ⟨g, hg⟩ := gapAds_fires (policyTextOf cd) (hasPolicy cd) h
  have hmem : g ∈ buildGaps cd := by
    simp only [buildGaps, List.mem_append, mem_option_toList]
    tauto
  exact ⟨g, analyze_gaps_mem_iff.mpr hmem, (gapAds_shape hg).1, (gapAds_shape hg).2.1⟩

/-- C5 witness: the record with one Meta Pixel advertising tracker yields the
tracker-disclosure gap with risk 1 × 68000. -/
theorem c5_ad_tracker_risk_witness :
    cdNoPolicy.trackers_found.filter (fun t => t.category == "advertising") ≠ [] ∧
    ∃ g ∈ (analyze_gaps cdNoPolicy).gaps,
      g.tags = ["advertising", "disclosure"] ∧
      g.fine_raw =
        ((cdNoPolicy.trackers_found.filter (fun t => t.category == "advertising")).length : Int) * 68000 :=
  ⟨by decide, c5_ad_tracker_risk cdNoPolicy (by decide)⟩

/-- C6 (amended): whenever the consent-banner analysis recorded at least one
issue, `analyze_gaps` emits a consent-mechanism gap with the fixed risk
constant 180000; its severity is always "critical", independent of how many
issues were recorded. -/
theorem c6_consent_gap_fixed (cd : CrawlData) (h : cd.consent_banner.issues ≠ []) :
    ∃ g ∈ (analyze_gaps cd).gaps,
      g.tags = ["cookies", "consent"] ∧ g.fine_raw = 180000 ∧ g.severity = "critical" := by
  obtain ⟨g, hg⟩ := gapConsent_fires h
  have hmem : g ∈ buildGaps cd := by
    simp only [buildGaps, List.mem_append, mem_option_toList]
    tauto
  exact ⟨g, analyze_gaps_mem_iff.mpr hmem,
    (gapConsent_shape hg).1, (gapConsent_shape hg).2.1, (gapConsent_shape hg).2.2⟩

/-- C6 counterexample: the consent gap's severity does not scale with the
recorded issue count — one recorded issue and three recorded issues produce
the same single consent gap of severity "critical". -/
theorem c6_severity_scaling_counterexample :
    cdOneIssue.consent_banner.issues.length = 1 ∧
    cdThreeIssues.consent_banner.issues.length = 3 ∧
    (analyze_gaps cdOneIssue).gaps.map (fun g => (g.severity, g.tags)) =
      [("critical", ["cookies", "consent"])] ∧
    (analyze_gaps cdThreeIssues).gaps.map (fun g => (g.severity, g.tags)) =
      [("critical", ["cookies", "consent"])] := by
  decide

/-- C6 witness: the single-issue record yields the consent gap with risk
180000 and severity critical. -/
theorem c6_consent_gap_fixed_witness :
    cdOneIssue.consent_banner.issues ≠ [] ∧
    ∃ g ∈ (analyze_gaps cdOneIssue).gaps,
      g.tags = ["cookies", "consent"] ∧ g.fine_raw = 180000 ∧ g.severity = "critical" :=
  ⟨by decide, c6_consent_gap_fixed cdOneIssue (by decide)⟩

/-- C8 (amended): for an evidence record with no trackers, no signals, no
consent issues, no retrieved policy text and no required sensitive form
fields, the report is the explicit indeterminate one: note set, compliance
score 0, empty gap list, total risk 0.  (Without the form-field condition
the excessive-fields rule can still fire, see the counterexample.) -/
theorem c8_indeterminate_report (cd : CrawlData)
    (ht : cd.trackers_found = []) (hs : cd.data_collection_signals = [])
    (hc : cd.consent_banner.issues = []) (hp : cd.privacy_policy_text = "")
    (hf : excessiveFields cd.forms_detected = []) :
    (analyze_gaps cd).note.isSome = true ∧ (analyze_gaps cd).compliance_score = 0 ∧
    (analyze_gaps cd).gaps = [] ∧ (analyze_gaps cd).total_risk_exposure = 0 := by
  have hpol : hasPolicy cd = false := by
    unfold hasPolicy policyTextOf
    rw [hp]
    rfl
  have hb : buildGaps cd = [] := by
    simp [buildGaps, gapAds, gapAnalytics, gapConsent, gapLocation, gapSession, gapForms,
      ht, hs, hc, hpol, hf]
  have hcond : ((buildGaps cd).isEmpty && !hasPolicy cd) = true := by
    rw [hb, hpol]
    rfl
  rw [analyze_gaps_indet cd hcond]
  exact ⟨rfl, rfl, rfl, rfl⟩

/-- C8 counterexample: a record satisfying the four stated conditions but
carrying a form with a required "phone" field is not indeterminate — the
excessive-fields rule fires and the score is 91. -/
theorem c8_indeterminate_counterexample :
    cdFormOnly.trackers_found = [] ∧ cdFormOnly.data_collection_signals = [] ∧
    cdFormOnly.consent_banner.issues = [] ∧ cdFormOnly.privacy_policy_text = "" ∧
    (analyze_gaps cdFormOnly).total_gaps = 1 ∧
    (analyze_gaps cdFormOnly).compliance_score = 91 ∧
    (analyze_gaps cdFormOnly).note = none := by
  decide

/-- C8 witness: the fully empty evidence record yields the indeterminate
report. -/
theorem c8_indeterminate_report_witness :
    cdEmpty.trackers_found = [] ∧ cdEmpty.data_collection_signals = [] ∧
    cdEmpty.consent_banner.issues = [] ∧ cdEmpty.privacy_policy_text = "" ∧
    excessiveFields cdEmpty.forms_detected = [] ∧
    ((analyze_gaps cdEmpty).note.isSome = true ∧
      (analyze_gaps cdEmpty).compliance_score = 0 ∧
      (analyze_gaps cdEmpty).gaps = [] ∧
      (analyze_gaps cdEmpty).total_risk_exposure = 0) :=
  ⟨rfl, rfl, rfl, rfl, rfl, c8_indeterminate_report cdEmpty rfl rfl rfl rfl rfl⟩

/-- C9: for every input the total risk exposure is a non-negative integer and
the GDPR, CCPA/CPRA and State Laws bucket amounts sum exactly to it. -/
theorem c9_risk_split (cd : CrawlData) :
    0 ≤ (analyze_gaps cd).total_risk_exposure ∧
    ∃ a b c : Int,
      (analyze_gaps cd).risk_by_regulation =
        [⟨"GDPR", a⟩, ⟨"CCPA/CPRA", b⟩, ⟨"State Laws", c⟩] ∧
      a + b + c = (analyze_gaps cd).total_risk_exposure := by
  by_cases h : ((buildGaps cd).isEmpty && !hasPolicy cd) = true
  · rw [analyze_gaps_indet cd h]
    exact ⟨le_refl 0, 0, 0, 0, rfl, rfl⟩
  · rw [analyze_gaps_main cd ((Bool.not_eq_true _).mp h)]
    refine ⟨List.sum_nonneg ?_, _, _, _, rfl, by ring⟩
    intro x hx
    obtain ⟨g, hg, rfl⟩ := List.mem_map.mp hx
    exact buildGaps_fine_nonneg hg

/-- C10: in every non-indeterminate report each gap's severity is one of
"critical", "warning", "info", and total_gaps equals critical_count +
warning_count + info_count. -/
theorem c10_severity_partition (cd : CrawlData)
    (hnote : (analyze_gaps cd).note = none) :
    (∀ g ∈ (analyze_gaps cd).gaps,
      g.severity = "critical" ∨ g.severity = "warning" ∨ g.severity = "info") ∧
    (analyze_gaps cd).total_gaps =
      (analyze_gaps cd).critical_count + (analyze_gaps cd).warning_count +
        (analyze_gaps cd).info_count := by
  constructor
  · intro g hg
    exact buildGaps_severity (analyze_gaps_mem_iff.mp hg)
  · by_cases h : ((buildGaps cd).isEmpty && !hasPolicy cd) = true
    · rw [analyze_gaps_indet cd h]
      rfl
    · rw [analyze_gaps_main cd ((Bool.not_eq_true _).mp h)]
      dsimp only
      have hpart := length_filter_three (sortGaps (buildGaps cd))
        (fun g hg => buildGaps_severity (mem_sortGaps.mp hg))
      omega

/-- C10 witness: the three-gap no-policy record has a non-indeterminate
report whose counts partition by severity. -/
theorem c10_severity_partition_witness :
    (analyze_gaps cdNoPolicy).note = none ∧
    ((∀ g ∈ (analyze_gaps cdNoPolicy).gaps,
      g.severity = "critical" ∨ g.severity = "warning" ∨ g.severity = "info") ∧
    (analyze_gaps cdNoPolicy).total_gaps =
      (analyze_gaps cdNoPolicy).critical_count + (analyze_gaps cdNoPolicy).warning_count +
        (analyze_gaps cdNoPolicy).info_count) :=
  ⟨by decide, c10_severity_partition cdNoPolicy (by decide)⟩

/-- C7: `find_relevant_cases` keeps exactly the positive-overlap enforcement
cases, ordered by descending tag overlap with ties by descending fine
amount, and returns the first `limit` of that ordering. -/
theorem c7_find_relevant_cases_spec (tags : List String) (limit : Nat) :
    ∃ s : List Case,
      s.Perm (ENFORCEMENT_CASES.filter (fun c => decide (0 < tagOverlap tags c))) ∧
      s.Pairwise (fun a b => tagOverlap tags b < tagOverlap tags a ∨
        (tagOverlap tags a = tagOverlap tags b ∧ b.fine_usd ≤ a.fine_usd)) ∧
      find_relevant_cases tags limit = s.take limit := by
  refine ⟨(sortScored (ENFORCEMENT_CASES.filterMap (fun c =>
    let ov := tagOverlap tags c
    if 0 < ov then some (ov, c) else none))).map Prod.snd, ?_, ?_, ?_⟩
  · have h1 := (sortScored_perm (ENFORCEMENT_CASES.filterMap (fun c =>
      let ov := tagOverlap tags c
      if 0 < ov then some (ov, c) else none))).map Prod.snd
    rwa [scored_map_snd] at h1
  · refine List.pairwise_map.mpr ?_
    refine (sortScored_pairwise _).imp_of_mem ?_
    intro a b ha hb hab
    have ha' := scored_fst_eq ((sortScored_perm _).mem_iff.mp ha)
    have hb' := scored_fst_eq ((sortScored_perm _).mem_iff.mp hb)
    rw [scoredKeyLE, ha', hb'] at hab
    exact hab
  · exact List.map_take _ _ _

/-- C2 counterexample: on the scenario-A page (one script tag sourced from
googletagmanager.com) the single finding's recorded detection channel is
"html" — the whole-page substring scan fires before the script-src scan —
not "script_src" as claimed. -/
theorem c2_channel_counterexample :
    (detect_trackers pageA_html pageA_scripts []).map (fun t => (t.name, t.category, t.source)) =
      [("Google Tag Manager", "tag_management", "html")] ∧
    ("html" : String) ≠ "script_src" := by
  decide

/-- C2 (amended): the scenario-A page yields exactly one tracker, named
"Google Tag Manager", category tag_management, detection channel "html". -/
theorem c2_gtm_scenario :
    detect_trackers pageA_html pageA_scripts [] =
      [{ name := "Google Tag Manager", category := "tag_management",
         data_shared := ["page views", "events", "user interactions"],
         signature := "googletagmanager.com", source := "html" }] := by
  decide

end ShieldAI
